import Mathlib

/-!
Shallow embedding of the rfd-site theme-toggle route
(`src/app/routes/user.toggle-theme.tsx`) and the root loader/layout
(`src/unnamed/part_000`), with theorems about their behaviour.
-/

/-- The two named theme values, `'light'` and `'dark'`. -/
inductive ThemeValue where
  | light
  | dark
deriving DecidableEq, Repr, Fintype

/-- TS type `Theme = 'light' | 'dark' | null` from
`src/app/routes/user.toggle-theme.tsx`; `none` means "follow system". -/
abbrev Theme := Option ThemeValue

/-- Modelled from the spec: `themeCookie.parse` lives in
`services/cookies.server`, which is not part of the provided sources.
Per the spec, "the theme cookie, when present, must decode to one of the
two named values or be treated as absent". The argument is the raw cookie
value from the request (or `none` when the cookie is absent). -/
def themeCookieParse (rawCookie : Option String) : Theme :=
  match rawCookie with
  | none => none
  | some s =>
      if s = "light" then some ThemeValue.light
      else if s = "dark" then some ThemeValue.dark
      else none

/-- Modelled from the spec: `themeCookie.serialize` lives in
`services/cookies.server`, which is not part of the provided sources.
It encodes a theme value as the raw cookie value, inverse to
`themeCookieParse`. -/
def themeCookieSerialize (t : ThemeValue) : String :=
  match t with
  | ThemeValue.light => "light"
  | ThemeValue.dark => "dark"

/-- `const effectiveTheme = currentTheme ?? systemPreference ?? 'dark'`
from the toggle action (user.toggle-theme.tsx line 25). -/
def effectiveTheme (currentTheme systemPreference : Theme) : ThemeValue :=
  match currentTheme with
  | some t => t
  | none =>
      match systemPreference with
      | some t => t
      | none => ThemeValue.dark

/-- `const newTheme = effectiveTheme === 'light' ? 'dark' : 'light'`
from the toggle action (user.toggle-theme.tsx line 28). -/
def newTheme (currentTheme systemPreference : Theme) : ThemeValue :=
  if effectiveTheme currentTheme systemPreference = ThemeValue.light then ThemeValue.dark
  else ThemeValue.light

/-- The response produced by the toggle action: a body (absent, since the
code returns `data(null, ...)`) and a header list. -/
structure ToggleResponse where
  body : Option String
  headers : List (String × String)
deriving DecidableEq, Repr

/-- The toggle `action` from `src/app/routes/user.toggle-theme.tsx`
(lines 16 to 35): parse the theme cookie (`?? null`), read the
`systemPreference` form field, compute the effective theme, flip it, and
respond with no body, a `Cache-Control: no-cache` header and a
`Set-Cookie` header carrying the serialized new theme. -/
def action (cookieHeader : Option String) (systemPreference : Theme) : ToggleResponse :=
  let currentTheme : Theme := themeCookieParse cookieHeader
  let eff := effectiveTheme currentTheme systemPreference
  let nw : ThemeValue := if eff = ThemeValue.light then ThemeValue.dark else ThemeValue.light
  { body := none
    headers := [("Cache-Control", "no-cache"), ("Set-Cookie", themeCookieSerialize nw)] }

/-- Extract the value of the `Set-Cookie` header of a toggle response. -/
def setCookieValue (r : ToggleResponse) : Option String :=
  r.headers.lookup "Set-Cookie"

/-- One toggle round trip at the cookie level: the raw cookie value the
action writes, given the raw cookie value it read. -/
def toggleOnce (rawCookie : Option String) (systemPreference : Theme) : Option String :=
  setCookieValue (action rawCookie systemPreference)

/-- Written from the spec's words (section 8), for comparison with the
code-derived `action`: `effective = v ?? p ?? dark`. -/
def specEffectiveTheme (v p : Theme) : ThemeValue :=
  match v with
  | some t => t
  | none =>
      match p with
      | some t => t
      | none => ThemeValue.dark

/-- Written from the spec's words (section 8), for comparison with the
code-derived `action`: output is `dark` when `effective(v,p) = light`,
otherwise `light`. -/
def specNewTheme (v p : Theme) : ThemeValue :=
  if specEffectiveTheme v p = ThemeValue.light then ThemeValue.dark else ThemeValue.light

/-- The bundle the root loader returns (`src/unnamed/part_000`, lines 60
to 71 and 79 to 88). `User`, `Rfd`, `Author`, `Label` and `Num` are the
opaque collaborator types the loader only passes through. -/
structure LoaderData (User Rfd Author Label Num : Type) where
  theme : Theme
  inlineComments : Bool
  user : User
  rfds : List Rfd
  authors : List Author
  labels : List Label
  localMode : Bool
  newRfdNumber : Option Num

/-- A run of the root loader: whether `logout` was called, and the data
returned to the renderer. Modelled from the spec for the part outside the
sources: `logout` (services/auth.server is not in src) is recorded as an
effect and returns, so that, per the spec, an auth failure "results in a
logout call and an empty-document response rather than a thrown error
reaching the renderer". -/
structure LoaderRun (User Rfd Author Label Num : Type) where
  logoutCalled : Bool
  result : LoaderData User Rfd Author Label Num

/-- The root `loader` from `src/unnamed/part_000` (lines 47 to 89).
Inputs are the already-resolved collaborator results: the raw theme
cookie value, the parsed `inlineComments` cookie value (`none` when the
cookie is absent), the authenticated `user`, and the outcome of
`fetchRfds` — `Except.error` when the fetch throws, otherwise the
possibly-null list (`(await fetchRfds(user)) || []` maps null to `[]`).
In the success branch `rfds` is always an array (hence truthy), so the
code's `rfds ? getAuthors(rfds) : []` always takes the first arm. On a
thrown fetch error the catch block calls `logout` and the loader falls
through to the empty fallback return. -/
def loader {User Rfd Author Label Num : Type}
    (getAuthors : List Rfd → List Author) (getLabels : List Rfd → List Label)
    (isLocalMode : Bool) (provideNewRfdNumber : List Rfd → Option Num)
    (themeCookieRaw : Option String) (inlineCommentsCookieVal : Option Bool)
    (user : User) (fetchRfdsResult : Except Unit (Option (List Rfd))) :
    LoaderRun User Rfd Author Label Num :=
  let theme : Theme := themeCookieParse themeCookieRaw
  let inlineComments : Bool := inlineCommentsCookieVal.getD true
  match fetchRfdsResult with
  | Except.ok fetched =>
      let rfds : List Rfd := fetched.getD []
      { logoutCalled := false
        result :=
          { theme := theme, inlineComments := inlineComments, user := user
            rfds := rfds, authors := getAuthors rfds, labels := getLabels rfds
            localMode := isLocalMode, newRfdNumber := provideNewRfdNumber rfds } }
  | Except.error _ =>
      { logoutCalled := true
        result :=
          { theme := theme, inlineComments := inlineComments, user := user
            rfds := [], authors := [], labels := []
            localMode := isLocalMode, newRfdNumber := none } }

/-- `initialClass` from `Layout` (`src/unnamed/part_000`, lines 144-145):
`theme === 'light' ? 'light-mode' : theme === 'dark' ? 'dark-mode' : ''`. -/
def layoutInitialClass (theme : Theme) : String :=
  if theme = some ThemeValue.light then "light-mode"
  else if theme = some ThemeValue.dark then "dark-mode"
  else ""

/-- `colorScheme` from `Layout` (`src/unnamed/part_000`, line 147):
`theme === 'light' ? 'light' : theme === 'dark' ? 'dark' : 'dark light'`. -/
def layoutColorScheme (theme : Theme) : String :=
  if theme = some ThemeValue.light then "light"
  else if theme = some ThemeValue.dark then "dark"
  else "dark light"

/-- What one execution of the inlined pre-hydration script does on the
client: whether it read the `prefers-color-scheme` media query, the class
it assigned to the document root, and the `color-scheme` meta content it
set. -/
structure ThemeScriptRun where
  consultedSystemPreference : Bool
  resolvedClass : String
  metaColorScheme : String
deriving DecidableEq, Repr

/-- Semantics of the script emitted by `themeScript` in
`src/unnamed/part_000` (lines 119 to 135), as a function of the theme
interpolated into it and of the client's `prefers-color-scheme: light`
match result. When `savedTheme` is null the script resolves the class
from `window.matchMedia`; otherwise from `savedTheme === 'light'`. It
then sets the meta content from `resolvedTheme === 'light-mode'`. -/
def themeScriptRun (theme : Theme) (prefersLight : Bool) : ThemeScriptRun :=
  let resolved : String :=
    match theme with
    | none => if prefersLight then "light-mode" else "dark-mode"
    | some t => if t = ThemeValue.light then "light-mode" else "dark-mode"
  { consultedSystemPreference := theme.isNone
    resolvedClass := resolved
    metaColorScheme := if resolved = "light-mode" then "light" else "dark" }

lemma setCookieValue_action (c : Option String) (p : Theme) :
    setCookieValue (action c p)
      = some (themeCookieSerialize (newTheme (themeCookieParse c) p)) := rfl

/-- C1: for every cookie theme value `v` among light, dark and absent and
every submitted `systemPreference` `p` in the same range, the toggle
action computes `effective = v ?? p ?? 'dark'` and writes `'dark'` as the
new theme when `effective` is `'light'`, and `'light'` otherwise. -/
theorem toggle_action_flips_effective_theme :
    ∀ v p : Theme,
      setCookieValue (action (v.map themeCookieSerialize) p)
        = some (themeCookieSerialize (specNewTheme v p)) := by decide

/-- C2: for every starting cookie value `v` and system-preference hint
`p` held fixed, toggling twice — the second call reading the cookie
written by the first — yields an effective theme equal to the original
`effective(v, p)`. -/
theorem toggle_twice_restores_effective_theme :
    ∀ v p : Theme,
      effectiveTheme
          (themeCookieParse (toggleOnce (toggleOnce (v.map themeCookieSerialize) p) p)) p
        = effectiveTheme v p := by decide

/-- C3: whenever the document fetch stage of the root loader throws
(including an authentication failure surfacing during the fetch), the
loader calls `logout` and returns the empty-document bundle
(`rfds = []`, `authors = []`, `labels = []`, `newRfdNumber` undefined)
instead of letting the thrown error reach the renderer. -/
theorem loader_fetch_failure_logs_out_and_returns_empty
    {User Rfd Author Label Num : Type}
    (getAuthors : List Rfd → List Author) (getLabels : List Rfd → List Label)
    (isLocalMode : Bool) (provideNewRfdNumber : List Rfd → Option Num)
    (themeCookieRaw : Option String) (inlineCommentsCookieVal : Option Bool)
    (user : User) (e : Unit) :
    (loader getAuthors getLabels isLocalMode provideNewRfdNumber themeCookieRaw
          inlineCommentsCookieVal user (Except.error e)).logoutCalled = true
    ∧ (loader getAuthors getLabels isLocalMode provideNewRfdNumber themeCookieRaw
          inlineCommentsCookieVal user (Except.error e)).result.rfds = []
    ∧ (loader getAuthors getLabels isLocalMode provideNewRfdNumber themeCookieRaw
          inlineCommentsCookieVal user (Except.error e)).result.authors = []
    ∧ (loader getAuthors getLabels isLocalMode provideNewRfdNumber themeCookieRaw
          inlineCommentsCookieVal user (Except.error e)).result.labels = []
    ∧ (loader getAuthors getLabels isLocalMode provideNewRfdNumber themeCookieRaw
          inlineCommentsCookieVal user (Except.error e)).result.newRfdNumber = none :=
  ⟨rfl, rfl, rfl, rfl, rfl⟩

/-- C4: the shell's root html class and color-scheme meta content are
determined by the resolved theme: `light` yields class `light-mode` and
meta `light`, `dark` yields `dark-mode` and `dark`, and an absent theme
yields the empty class and meta `dark light`. -/
theorem layout_class_and_color_scheme_by_theme :
    layoutInitialClass (some ThemeValue.light) = "light-mode"
    ∧ layoutColorScheme (some ThemeValue.light) = "light"
    ∧ layoutInitialClass (some ThemeValue.dark) = "dark-mode"
    ∧ layoutColorScheme (some ThemeValue.dark) = "dark"
    ∧ layoutInitialClass none = ""
    ∧ layoutColorScheme none = "dark light" := by decide

/-- C5: a theme cookie value that is present but neither `light` nor
`dark` is treated by the toggle action exactly as an absent cookie: the
whole response is the same as with no cookie, so the action falls
through to `systemPreference` and then to `'dark'`. -/
theorem malformed_theme_cookie_treated_as_absent
    (raw : String) (p : Theme) (h1 : raw ≠ "light") (h2 : raw ≠ "dark") :
    action (some raw) p = action none p := by
  simp [action, themeCookieParse, h1, h2]

/-- Witness for C5 at the concrete malformed value `banana`. -/
theorem malformed_theme_cookie_treated_as_absent_witness :
    ("banana" ≠ "light" ∧ "banana" ≠ "dark")
    ∧ action (some "banana") (some ThemeValue.light)
        = action none (some ThemeValue.light) :=
  ⟨⟨by decide, by decide⟩,
    malformed_theme_cookie_treated_as_absent "banana" (some ThemeValue.light)
      (by decide) (by decide)⟩

/-- C6: for every request, the toggle action's response has no body and
carries exactly a `Cache-Control: no-cache` header and a `Set-Cookie`
header encoding the newly computed theme. -/
theorem toggle_response_shape (c : Option String) (p : Theme) :
    (action c p).body = none
    ∧ (action c p).headers
        = [("Cache-Control", "no-cache"),
           ("Set-Cookie", themeCookieSerialize (newTheme (themeCookieParse c) p))] :=
  ⟨rfl, rfl⟩

/-- C7: when the `inlineComments` cookie is absent, the root loader
returns `inlineComments = true`, whether the fetch succeeds or fails. -/
theorem loader_inline_comments_default_true
    {User Rfd Author Label Num : Type}
    (getAuthors : List Rfd → List Author) (getLabels : List Rfd → List Label)
    (isLocalMode : Bool) (provideNewRfdNumber : List Rfd → Option Num)
    (themeCookieRaw : Option String) (user : User)
    (fr : Except Unit (Option (List Rfd))) :
    (loader getAuthors getLabels isLocalMode provideNewRfdNumber themeCookieRaw
        none user fr).result.inlineComments = true := by
  cases fr <;> rfl

/-- C8: the inlined pre-hydration script consults the client's
`prefers-color-scheme` media query exactly when no explicit theme is
set; with a saved `light` or `dark` theme its whole behaviour is
independent of the system preference. -/
theorem theme_script_consults_system_only_when_theme_absent :
    (∀ sp : Bool, (themeScriptRun none sp).consultedSystemPreference = true)
    ∧ ∀ (t : ThemeValue) (a b : Bool),
        (themeScriptRun (some t) a).consultedSystemPreference = false
        ∧ themeScriptRun (some t) a = themeScriptRun (some t) b := by decide

/-- C9: for every input, the theme serialized into the toggle action's
`Set-Cookie` header is one of the two named values; parsing the written
cookie never yields the absent (follow-system) state. -/
theorem toggle_always_writes_named_theme (c : Option String) (p : Theme) :
    ∃ t : ThemeValue,
      setCookieValue (action c p) = some (themeCookieSerialize t)
      ∧ themeCookieParse (setCookieValue (action c p)) = some t := by
  refine ⟨newTheme (themeCookieParse c) p, setCookieValue_action c p, ?_⟩
  rw [setCookieValue_action]
  cases newTheme (themeCookieParse c) p <;> rfl

/-- C10: the root loader's fallback (error-path) return carries the same
`theme`, `inlineComments`, `user` and `localMode` values as the
success-path return for the same request; only `rfds`, `authors`,
`labels` and `newRfdNumber` differ, becoming `[]`, `[]`, `[]` and
undefined. -/
theorem loader_fallback_frame
    {User Rfd Author Label Num : Type}
    (getAuthors : List Rfd → List Author) (getLabels : List Rfd → List Label)
    (isLocalMode : Bool) (provideNewRfdNumber : List Rfd → Option Num)
    (themeCookieRaw : Option String) (inlineCommentsCookieVal : Option Bool)
    (user : User) (fetched : Option (List Rfd)) (e : Unit) :
    (loader getAuthors getLabels isLocalMode provideNewRfdNumber themeCookieRaw
          inlineCommentsCookieVal user (Except.error e)).result.theme
      = (loader getAuthors getLabels isLocalMode provideNewRfdNumber themeCookieRaw
          inlineCommentsCookieVal user (Except.ok fetched)).result.theme
    ∧ (loader getAuthors getLabels isLocalMode provideNewRfdNumber themeCookieRaw
          inlineCommentsCookieVal user (Except.error e)).result.inlineComments
      = (loader getAuthors getLabels isLocalMode provideNewRfdNumber themeCookieRaw
          inlineCommentsCookieVal user (Except.ok fetched)).result.inlineComments
    ∧ (loader getAuthors getLabels isLocalMode provideNewRfdNumber themeCookieRaw
          inlineCommentsCookieVal user (Except.error e)).result.user
      = (loader getAuthors getLabels isLocalMode provideNewRfdNumber themeCookieRaw
          inlineCommentsCookieVal user (Except.ok fetched)).result.user
    ∧ (loader getAuthors getLabels isLocalMode provideNewRfdNumber themeCookieRaw
          inlineCommentsCookieVal user (Except.error e)).result.localMode
      = (loader getAuthors getLabels isLocalMode provideNewRfdNumber themeCookieRaw
          inlineCommentsCookieVal user (Except.ok fetched)).result.localMode
    ∧ (loader getAuthors getLabels isLocalMode provideNewRfdNumber themeCookieRaw
          inlineCommentsCookieVal user (Except.error e)).result.rfds = []
    ∧ (loader getAuthors getLabels isLocalMode provideNewRfdNumber themeCookieRaw
          inlineCommentsCookieVal user (Except.error e)).result.authors = []
    ∧ (loader getAuthors getLabels isLocalMode provideNewRfdNumber themeCookieRaw
          inlineCommentsCookieVal user (Except.error e)).result.labels = []
    ∧ (loader getAuthors getLabels isLocalMode provideNewRfdNumber themeCookieRaw
          inlineCommentsCookieVal user (Except.error e)).result.newRfdNumber = none :=
  ⟨rfl, rfl, rfl, rfl, rfl, rfl, rfl, rfl⟩
